import Mathlib

set_option maxRecDepth 16384

/-!
Verification development for the CoE-Agent RAG workflow core.

Shallow embedding of:
  * `core/models.py`   — data model (tasks, steps, results, search hits);
  * `tools/text_utils.py` — `synthesize_answer` (with a model of
    `textwrap.shorten`);
  * `core/agents/rag_workflow_agent.py` — the workflow runner and the
    per-operation step dispatcher;
  * `services/rag_client.py` — the remote client's argument validation and
    request issuing (the HTTP layer is an opaque environment).

Modelling conventions:
  * Python runtime values that flow through untyped `dict[str, Any]`
    parameter mappings are modelled by the inductive `PyVal`
    (floats and bytes do not occur on any path the claims touch and are
    not modelled).
  * Python exceptions are modelled as `Except String`, carrying `str(exc)`.
  * Python whitespace handling (`str.strip`, `str.split`) is modelled over
    the ASCII whitespace characters; exotic Unicode whitespace is not
    modelled.
  * `async`/`await` sequencing is strictly sequential in the source
    (each call is awaited before the next starts), so the embedding is a
    plain sequential function.
-/

/-- Python runtime values as they occur in the agent's parameter mappings
and JSON payloads (`None`, `bool`, `int`, `str`, `list`, `dict`). -/
inductive PyVal where
  | none
  | bool (b : Bool)
  | int (n : Int)
  | str (s : String)
  | list (xs : List PyVal)
  | dict (kvs : List (String × PyVal))

/-- Python truthiness (`bool(v)`): `None`, `False`, `0`, `""`, `[]`, `{}`
are falsy, everything else truthy. -/
def PyVal.truthy : PyVal → Bool
  | .none => false
  | .bool b => b
  | .int n => n != 0
  | .str s => s != ""
  | .list xs => !xs.isEmpty
  | .dict kvs => !kvs.isEmpty

/-- Python `a or b`: returns `a` when `a` is truthy, else `b`. -/
def pyOr (a b : PyVal) : PyVal :=
  if a.truthy then a else b

/-- Python `mapping.get(key, default)` on an insertion-ordered dict modelled
as an association list (first binding of a key is its binding). -/
def dictGetD (m : List (String × PyVal)) (k : String) (d : PyVal) : PyVal :=
  match m.find? (fun kv => kv.1 == k) with
  | some kv => kv.2
  | Option.none => d

/-- Python `dict.__setitem__`: overwrite the existing binding in place, or
append a fresh key at the end (insertion order). -/
def dictSet (m : List (String × PyVal)) (k : String) (v : PyVal) : List (String × PyVal) :=
  if m.any (fun kv => kv.1 == k) then
    m.map (fun kv => if kv.1 == k then (kv.1, v) else kv)
  else
    m ++ [(k, v)]

/-- Python `base.update(upd)` for insertion-ordered dicts. -/
def dictUpdate (base upd : List (String × PyVal)) : List (String × PyVal) :=
  upd.foldl (fun acc kv => dictSet acc kv.1 kv.2) base

/-- Python `' '.join`-style join with an arbitrary separator. -/
def pyJoin (sep : String) : List String → String
  | [] => ""
  | [x] => x
  | x :: xs => x ++ sep ++ pyJoin sep (x :: xs).tail

/-- The ASCII whitespace characters recognised by Python's `str.strip()` and
`str.split()` (Unicode whitespace beyond ASCII is not modelled). -/
def isPySpace (c : Char) : Bool :=
  c == ' ' || c == '\t' || c == '\n' || c == '\r' || c == '\x0b' || c == '\x0c'

/-- Python `str.strip()` (whitespace on both ends). -/
def pyStrip (s : String) : String :=
  String.mk (((s.toList.dropWhile isPySpace).reverse.dropWhile isPySpace).reverse)

/-- Python `str.lstrip()`. -/
def pyLStrip (s : String) : String :=
  String.mk (s.toList.dropWhile isPySpace)

/-- Accumulator-passing core of `str.split()` (split on whitespace runs,
discarding empty pieces). `acc` holds the current word reversed. -/
def wordsAux : List Char → List Char → List String
  | [], acc => if acc.isEmpty then [] else [String.mk acc.reverse]
  | c :: cs, acc =>
    if isPySpace c then
      (if acc.isEmpty then [] else [String.mk acc.reverse]) ++ wordsAux cs []
    else
      wordsAux cs (c :: acc)

/-- Python `str.split()` with no separator: the whitespace-delimited words. -/
def pyWords (s : String) : List String :=
  wordsAux s.toList []

mutual

/-- Python `repr` for the modelled values. (String escaping inside `repr`
of a `str` is not modelled; no claim formats a string that needs it.) -/
def pyRepr : PyVal → String
  | .none => "None"
  | .bool b => if b then "True" else "False"
  | .int n => toString n
  | .str s => "'" ++ s ++ "'"
  | .list xs => "[" ++ pyReprList xs ++ "]"
  | .dict kvs => "\x7b" ++ pyReprKVs kvs ++ "\x7d"

/-- `", ".join(repr(x) for x in xs)`. -/
def pyReprList : List PyVal → String
  | [] => ""
  | [x] => pyRepr x
  | x :: y :: xs => pyRepr x ++ ", " ++ pyReprList (y :: xs)

/-- `", ".join(repr(k) + ": " + repr(v) for k, v in kvs)`. -/
def pyReprKVs : List (String × PyVal) → String
  | [] => ""
  | [kv] => "'" ++ kv.1 ++ "': " ++ pyRepr kv.2
  | kv :: kv2 :: kvs => "'" ++ kv.1 ++ "': " ++ pyRepr kv.2 ++ ", " ++ pyReprKVs (kv2 :: kvs)

end

/-- Python `str(v)` as used by f-string interpolation. -/
def pyStr : PyVal → String
  | .none => "None"
  | .bool b => if b then "True" else "False"
  | .int n => toString n
  | .str s => s
  | .list xs => pyRepr (.list xs)
  | .dict kvs => pyRepr (.dict kvs)

/-- Python `int(v)` on the modelled values: exact for `bool`/`int`, parses
decimal literals (with surrounding whitespace) for `str`, raises otherwise.
(`int()` of underscore-grouped or non-ASCII digit literals is not
modelled.) -/
def PyVal.toPyInt : PyVal → Except String Int
  | .bool b => .ok (if b then 1 else 0)
  | .int n => .ok n
  | .str s =>
    match s.trim.toInt? with
    | some n => .ok n
    | Option.none => .error ("invalid literal for int() with base 10: '" ++ s ++ "'")
  | .none => .error "int() argument must be a string, a bytes-like object or a real number, not 'NoneType'"
  | .list _ => .error "int() argument must be a string, a bytes-like object or a real number, not 'list'"
  | .dict _ => .error "int() argument must be a string, a bytes-like object or a real number, not 'dict'"

/-!  ## `tools/text_utils.py`  -/

/-- Greedy truncation core of `textwrap.shorten` (width, placeholder
length): the longest prefix of the word list whose single-space join,
followed by the placeholder, fits in `width`. `curLen` is the length of
the join of the words already kept. -/
def fitWordsAux (width phLen : Nat) : Nat → List String → List String
  | _, [] => []
  | curLen, w :: ws =>
    let newLen := if curLen == 0 then w.length else curLen + 1 + w.length
    if newLen + phLen ≤ width then w :: fitWordsAux width phLen newLen ws else []

/-- Model of Python `textwrap.shorten(text, width, placeholder)`: collapse
all whitespace runs to single spaces; if the collapsed text fits in
`width`, return it; otherwise keep the longest word prefix that fits
together with the placeholder and append the placeholder, or return the
left-stripped placeholder alone when not even one word fits.
(`break_on_hyphens` chunking, which only moves truncation points inside
hyphenated words, is not modelled; no verified property depends on it.) -/
def textwrap_shorten (text : String) (width : Nat) (placeholder : String) : String :=
  let ws := pyWords text
  let collapsed := pyJoin " " ws
  if collapsed.length ≤ width then collapsed
  else
    match fitWordsAux width placeholder.length 0 ws with
    | [] => pyLStrip placeholder
    | w :: kept => pyJoin " " (w :: kept) ++ placeholder

/-- `tools/text_utils.py: synthesize_answer` — compose
`"Question: {query}\nContext: {teaser} {remaining}"` from the stripped
snippets and shorten it to 320 characters with placeholder `" ..."`;
fixed message when there are no snippets. -/
def synthesize_answer (query : String) (snippets : List String) : String :=
  if snippets.isEmpty then
    "No supporting documents were located. Please provide additional detail."
  else
    let teaser := pyStrip (snippets.headD "")
    let remaining := pyJoin " " (snippets.tail.map pyStrip)
    let combined := pyStrip ("Question: " ++ query ++ "\nContext: " ++ teaser ++ " " ++ remaining)
    textwrap_shorten combined 320 " ..."

/-!  ## `core/models.py`  -/

/-- `core/models.py: RagOperationType` — the closed enumeration of
supported workflow operations. -/
inductive RagOperationType where
  | SEMANTIC_SEARCH
  | SOURCE_SUMMARY_SEARCH
  | START_ANALYSIS
  | GET_ANALYSIS_RESULT
  | LIST_ANALYSIS_RESULTS
  | GENERATE_DOCUMENTS
  | GET_DOCUMENT_STATUS
  | EMBEDDING_STATS
deriving DecidableEq

/-- The `StrEnum` string value of each operation. -/
def RagOperationType.value : RagOperationType → String
  | .SEMANTIC_SEARCH => "semantic_search"
  | .SOURCE_SUMMARY_SEARCH => "source_summary_search"
  | .START_ANALYSIS => "start_analysis"
  | .GET_ANALYSIS_RESULT => "get_analysis_result"
  | .LIST_ANALYSIS_RESULTS => "list_analysis_results"
  | .GENERATE_DOCUMENTS => "generate_documents"
  | .GET_DOCUMENT_STATUS => "get_document_status"
  | .EMBEDDING_STATS => "embedding_stats"

/-- `core/models.py: RagWorkflowStep` — one operation plus its untyped
parameter mapping. -/
structure RagWorkflowStep where
  operation : RagOperationType
  parameters : List (String × PyVal) := []

/-- `core/models.py: RagWorkflowTask` — a composite task. `query` is
`str | None` in the source and is kept as a `PyVal` because only its
truthiness and its string value are used. `metadata` is `dict | None`;
`None` and `{}` behave identically at the only use site
(`metadata.update`), so both are modelled as the empty mapping. -/
structure RagWorkflowTask where
  task_id : String
  query : PyVal := .none
  operations : List RagWorkflowStep := []
  metadata : List (String × PyVal) := []

/-- `core/models.py: AgentStepResult` — outcome of one workflow step. -/
structure AgentStepResult where
  operation : String
  status : String
  output : PyVal

/-- `core/models.py: AgentResult` — the aggregated outcome of a run. -/
structure AgentResult where
  task_id : String
  answer : String
  context_snippets : List String
  metadata : List (String × PyVal)
  steps : List AgentStepResult

/-- `core/models.py: RagSearchResult` — a semantic search hit. The two
scores are `float | None` in the source; they are carried opaquely as
`PyVal` (no claim computes with them). -/
structure RagSearchResult where
  content : String
  metadata : List (String × PyVal) := []
  original_score : PyVal := .none
  rerank_score : PyVal := .none

/-- `core/models.py: RagSearchResult.as_context` — label precedence
`file_name or file_path or document_type or analysis_id` (Python `or`,
i.e. first truthy value), bracketed label prefix when the label is
truthy, and a final `str.strip()`. -/
def RagSearchResult.as_context (r : RagSearchResult) : String :=
  let label :=
    pyOr (dictGetD r.metadata "file_name" .none)
      (pyOr (dictGetD r.metadata "file_path" .none)
        (pyOr (dictGetD r.metadata "document_type" .none)
          (dictGetD r.metadata "analysis_id" .none)))
  let pfx := if label.truthy then "[" ++ pyStr label ++ "] " else ""
  pyStrip (pfx ++ r.content)

/-- `core/models.py: RagSourceSummaryResult` — a source-summary hit.
`file_path` and `language` are `str | None`; kept as `PyVal`. -/
structure RagSourceSummaryResult where
  content : String
  file_path : PyVal := .none
  language : PyVal := .none
  similarity_score : PyVal := .none
  metadata : List (String × PyVal) := []

/-- `core/models.py: RagSourceSummaryResult.as_context` — prefix joins
`file_path` and `language` (when present) with `" | "`, then strips. -/
def RagSourceSummaryResult.as_context (r : RagSourceSummaryResult) : String :=
  let parts :=
    (if r.file_path.truthy then [pyStr r.file_path] else []) ++
    (if r.language.truthy then [pyStr r.language] else [])
  let joined := pyJoin " | " parts
  let pfx := if joined != "" then "[" ++ joined ++ "] " else ""
  pyStrip (pfx ++ r.content)

/-!  ## `services/rag_client.py` — argument validation and request issuing

The HTTP layer is abstracted as an environment mapping a request to a
decoded JSON value or an error (`raise_for_status` failures and transport
faults both surface as the error message of the raised exception). Each
client method returns the `Except` outcome TOGETHER with the list of
requests it issued, so "no network call is issued" is expressible. -/

/-- One HTTP request as issued by `RagClient._request_json`. -/
structure HttpRequest where
  method : String
  path : String
  jsonBody : Option PyVal := Option.none
  queryParams : Option (List (String × PyVal)) := Option.none

/-- The network peer: decoded-JSON response or raised-exception message. -/
def HttpEnv : Type := HttpRequest → Except String PyVal

/-- `services/rag_client.py: RagClient._request_json` — issue exactly one
request and return its decoded body. -/
def RagClient.request_json (env : HttpEnv) (method path : String)
    (jsonBody : Option PyVal) (queryParams : Option (List (String × PyVal))) :
    Except String PyVal × List HttpRequest :=
  (env ⟨method, path, jsonBody, queryParams⟩, [⟨method, path, jsonBody, queryParams⟩])

/-- `services/rag_client.py: RagClient.start_analysis` — rejects a falsy
(e.g. empty) repositories value before building the payload or issuing
any request; otherwise posts `{repositories, **non-None options}` to
`/api/v1/analyze` and maps a falsy body to `{}`. -/
def RagClient.start_analysis (env : HttpEnv) (repositories : PyVal)
    (options : List (String × PyVal)) : Except String PyVal × List HttpRequest :=
  if !repositories.truthy then
    (.error "at least one repository is required to start analysis", [])
  else
    let payload := dictUpdate [("repositories", repositories)]
      (options.filter (fun kv => match kv.2 with | .none => false | _ => true))
    let r := RagClient.request_json env "POST" "/api/v1/analyze" (some (.dict payload)) Option.none
    (r.1.map (fun b => if b.truthy then b else .dict []), r.2)

/-- `services/rag_client.py: RagClient.generate_documents` — rejects a
falsy (e.g. empty) `document_types` value before building the payload or
issuing any request; otherwise posts to `/api/v1/documents/generate` with
`use_source_summaries` lowered into a query parameter. -/
def RagClient.generate_documents (env : HttpEnv) (analysis_id document_types : PyVal)
    (language : PyVal := .str "korean") (custom_prompt : PyVal := .none)
    (use_source_summaries : PyVal := .bool true) :
    Except String PyVal × List HttpRequest :=
  if !document_types.truthy then
    (.error "document_types must contain at least one entry", [])
  else
    let payload0 := [("analysis_id", analysis_id), ("document_types", document_types),
      ("language", language)]
    let payload := if custom_prompt.truthy then payload0 ++ [("custom_prompt", custom_prompt)]
      else payload0
    let qp := [("use_source_summaries",
      PyVal.str (if use_source_summaries.truthy then "true" else "false"))]
    let r := RagClient.request_json env "POST" "/api/v1/documents/generate"
      (some (.dict payload)) (some qp)
    (r.1.map (fun b => if b.truthy then b else .dict []), r.2)

/-!  ## `core/agents/rag_workflow_agent.py`

The agent receives an injected `RagClient`; the dispatcher is specified
against the client's typed method contract, so the client is abstracted as
a record of methods (each returning a structured result or a raised
exception's message). -/

/-- The keyword arguments of `RagClient.semantic_search` as passed by the
dispatcher. -/
structure SemanticSearchArgs where
  query : PyVal
  k : Int
  filter_metadata : PyVal
  analysis_id : PyVal
  repository_url : PyVal
  group_name : PyVal

/-- The typed method contract of `services/rag_client.py: RagClient` as the
dispatcher consumes it (one method per remote operation; structured
returns follow the source's type annotations). -/
structure RagClientI where
  semantic_search : SemanticSearchArgs → Except String (List RagSearchResult)
  search_source_summaries : PyVal → PyVal → Int → Except String (List RagSourceSummaryResult)
  start_analysis : PyVal → List (String × PyVal) → Except String (List (String × PyVal))
  get_analysis_result : PyVal → Except String (List (String × PyVal))
  list_analysis_results : Unit → Except String (List PyVal)
  generate_documents : PyVal → PyVal → PyVal → PyVal → PyVal → Except String (List (String × PyVal))
  get_document_status : PyVal → Except String (List (String × PyVal))
  get_embedding_stats : Unit → Except String (List (String × PyVal))

/-- `RagWorkflowAgent._safe_get` — `dict.get(key)` for mappings, `getattr`
with default `None` otherwise (modelled values have no attributes). -/
def safe_get (obj : PyVal) (key : String) : PyVal :=
  match obj with
  | .dict kvs => dictGetD kvs key .none
  | _ => .none

/-- Python `value[:3]` as applied by `_extract_repository_headlines`:
slices lists (and strings, whose slices are single-character strings);
raises on non-sliceable values. -/
def pySlice3 : PyVal → Except String (List PyVal)
  | .list xs => .ok (xs.take 3)
  | .str s => .ok ((s.toList.take 3).map (fun c => .str (String.mk [c])))
  | .dict _ => .error "unhashable type: 'slice'"
  | .none => .error "'NoneType' object is not subscriptable"
  | .bool _ => .error "'bool' object is not subscriptable"
  | .int _ => .error "'int' object is not subscriptable"

/-- `RagWorkflowAgent._extract_repository_headlines` — up to three
`"Repository insight: {name or url or unknown} ({language})"` snippets
from the analysis result's `repositories` field. -/
def extract_repository_headlines (analysis_result : List (String × PyVal)) :
    Except String (List String) :=
  let repositories := pyOr (dictGetD analysis_result "repositories" .none) (.list [])
  if !repositories.truthy then .ok []
  else
    (pySlice3 repositories).map (fun repos =>
      repos.map (fun repo =>
        let repo_name := pyOr (safe_get repo "name") (pyOr (safe_get repo "url") (.str "unknown"))
        let language := pyOr (safe_get repo "primary_language") (safe_get repo "language")
        let headline :=
          if language.truthy then pyStr repo_name ++ " (" ++ pyStr language ++ ")"
          else pyStr repo_name
        "Repository insight: " ++ headline))

namespace RagWorkflowAgent

/-- `RagWorkflowAgent._semantic_search_step` — resolve the query from the
step parameters with fallback to the task query, reject when neither is
truthy, coerce `k` (alias `top_k`, default 5) with `int()`, call the
client, shape output records, snippets and note. -/
def semantic_search_step (client : RagClientI) (params : List (String × PyVal))
    (task : RagWorkflowTask) : Except String (PyVal × List String × String) := do
  let query := pyOr (dictGetD params "query" .none) task.query
  if !query.truthy then throw "semantic_search requires a query"
  else
    let k ← PyVal.toPyInt (dictGetD params "k" (dictGetD params "top_k" (.int 5)))
    let results ← client.semantic_search
      ⟨query, k, dictGetD params "filter_metadata" .none, dictGetD params "analysis_id" .none,
        dictGetD params "repository_url" .none, dictGetD params "group_name" .none⟩
    let snippets := results.map RagSearchResult.as_context
    let output := PyVal.list (results.map (fun e =>
      .dict [("content", .str e.content), ("metadata", .dict e.metadata),
        ("original_score", e.original_score), ("rerank_score", e.rerank_score)]))
    pure (output, snippets, "retrieved " ++ toString results.length ++ " semantic matches")

/-- `RagWorkflowAgent._source_summary_step` — `analysis_id` is checked
first, then the query (with task fallback), then `top_k` (alias `k`,
default 10) is coerced with `int()` and the client is called. -/
def source_summary_step (client : RagClientI) (params : List (String × PyVal))
    (task : RagWorkflowTask) : Except String (PyVal × List String × String) := do
  let analysis_id := dictGetD params "analysis_id" .none
  if !analysis_id.truthy then throw "source_summary_search requires analysis_id"
  else
    let query := pyOr (dictGetD params "query" .none) task.query
    if !query.truthy then throw "source_summary_search requires a query"
    else
      let top_k ← PyVal.toPyInt (dictGetD params "top_k" (dictGetD params "k" (.int 10)))
      let results ← client.search_source_summaries analysis_id query top_k
      let snippets := results.map RagSourceSummaryResult.as_context
      let output := PyVal.list (results.map (fun e =>
        .dict [("content", .str e.content), ("file_path", e.file_path),
          ("language", e.language), ("similarity_score", e.similarity_score),
          ("metadata", .dict e.metadata)]))
      pure (output, snippets,
        "retrieved " ++ toString results.length ++ " source summaries for analysis "
          ++ pyStr analysis_id)

/-- `RagWorkflowAgent._start_analysis_step`. -/
def start_analysis_step (client : RagClientI) (params : List (String × PyVal)) :
    Except String (PyVal × List String × String) := do
  let repositories := dictGetD params "repositories" .none
  if !repositories.truthy then throw "start_analysis requires repositories"
  else
    let options := params.filter (fun kv => kv.1 != "repositories")
    let result ← client.start_analysis repositories options
    pure (.dict result, [],
      "analysis started with id " ++ pyStr (dictGetD result "analysis_id" (.str "unknown")))

/-- `RagWorkflowAgent._get_analysis_result_step`. -/
def get_analysis_result_step (client : RagClientI) (params : List (String × PyVal)) :
    Except String (PyVal × List String × String) := do
  let analysis_id := dictGetD params "analysis_id" .none
  if !analysis_id.truthy then throw "get_analysis_result requires analysis_id"
  else
    let result ← client.get_analysis_result analysis_id
    let snippets ← extract_repository_headlines result
    pure (.dict result, snippets,
      "analysis " ++ pyStr analysis_id ++ " status "
        ++ pyStr (dictGetD result "status" (.str "unknown")))

/-- `RagWorkflowAgent._list_analysis_results_step`. -/
def list_analysis_results_step (client : RagClientI) :
    Except String (PyVal × List String × String) := do
  let results ← client.list_analysis_results ()
  pure (.list results, [], "found " ++ toString results.length ++ " recorded analyses")

/-- `RagWorkflowAgent._generate_documents_step`. -/
def generate_documents_step (client : RagClientI) (params : List (String × PyVal)) :
    Except String (PyVal × List String × String) := do
  let analysis_id := dictGetD params "analysis_id" .none
  let document_types := dictGetD params "document_types" .none
  if !analysis_id.truthy || !document_types.truthy then
    throw "generate_documents requires analysis_id and document_types"
  else
    let result ← client.generate_documents analysis_id document_types
      (dictGetD params "language" (.str "korean"))
      (dictGetD params "custom_prompt" .none)
      (dictGetD params "use_source_summaries" (.bool true))
    pure (.dict result, [],
      "document generation task " ++ pyStr (dictGetD result "task_id" (.str "unknown"))
        ++ " submitted")

/-- `RagWorkflowAgent._get_document_status_step`. -/
def get_document_status_step (client : RagClientI) (params : List (String × PyVal)) :
    Except String (PyVal × List String × String) := do
  let task_id := dictGetD params "task_id" .none
  if !task_id.truthy then throw "get_document_status requires task_id"
  else
    let result ← client.get_document_status task_id
    pure (.dict result, [],
      "document task " ++ pyStr task_id ++ " status "
        ++ pyStr (dictGetD result "status" (.str "unknown")))

/-- `RagWorkflowAgent._embedding_stats_step`. -/
def embedding_stats_step (client : RagClientI) :
    Except String (PyVal × List String × String) := do
  let result ← client.get_embedding_stats ()
  pure (.dict result, [], "retrieved embedding statistics")

/-- `RagWorkflowAgent._execute_step` — dispatch on the operation. The
enumeration is closed, so the trailing `Unsupported workflow operation`
raise of the source is unreachable for well-typed steps and has no
corresponding branch. -/
def execute_step (client : RagClientI) (step : RagWorkflowStep) (task : RagWorkflowTask) :
    Except String (PyVal × List String × String) :=
  match step.operation with
  | .SEMANTIC_SEARCH => semantic_search_step client step.parameters task
  | .SOURCE_SUMMARY_SEARCH => source_summary_step client step.parameters task
  | .START_ANALYSIS => start_analysis_step client step.parameters
  | .GET_ANALYSIS_RESULT => get_analysis_result_step client step.parameters
  | .LIST_ANALYSIS_RESULTS => list_analysis_results_step client
  | .GENERATE_DOCUMENTS => generate_documents_step client step.parameters
  | .GET_DOCUMENT_STATUS => get_document_status_step client step.parameters
  | .EMBEDDING_STATS => embedding_stats_step client

/-- The `for index, step in enumerate(task.operations, start=1)` loop of
`RagWorkflowAgent.run`: returns the accumulated
`(step_results, collected_snippets, answer_notes)`, starting the
1-based numbering at `index`. A failing step contributes a `"failed"`
StepResult with `{error: message}` output and a
`"Step {i} ({op}) failed: {error}"` note and the loop continues; a
succeeding step contributes a `"succeeded"` StepResult, its snippets, and
(when the note is non-empty) a `"Step {i} ({op}): {note}"` note. -/
def runSteps (client : RagClientI) (task : RagWorkflowTask) :
    Nat → List RagWorkflowStep → List AgentStepResult × List String × List String
  | _, [] => ([], [], [])
  | index, step :: rest =>
    let tail := runSteps client task (index + 1) rest
    match execute_step client step task with
    | .error e =>
      (⟨step.operation.value, "failed", .dict [("error", .str e)]⟩ :: tail.1,
       tail.2.1,
       ("Step " ++ toString index ++ " (" ++ step.operation.value ++ ") failed: " ++ e)
         :: tail.2.2)
    | .ok out =>
      (⟨step.operation.value, "succeeded", out.1⟩ :: tail.1,
       out.2.1 ++ tail.2.1,
       (if out.2.2 != "" then
          [("Step " ++ toString index ++ " (" ++ step.operation.value ++ "): " ++ out.2.2)]
        else []) ++ tail.2.2)

/-- `RagWorkflowAgent.run` — reject a task with no operations, otherwise
run every step, then build the answer by the fallback chain
(synthesized ← query truthy and snippets collected; else joined notes;
else the fixed completion message) and assemble the `AgentResult`. -/
def run (client : RagClientI) (task : RagWorkflowTask) : Except String AgentResult :=
  if task.operations.isEmpty then
    .error "workflow task must declare at least one operation"
  else
    let metadata := dictUpdate
      [("workflow_operation_count", .int task.operations.length)] task.metadata
    let acc := runSteps client task 1 task.operations
    let answer1 :=
      if task.query.truthy && !acc.2.1.isEmpty then
        synthesize_answer (pyStr task.query) acc.2.1
      else ""
    let answer2 := if answer1 == "" && !acc.2.2.isEmpty then pyJoin "\n" acc.2.2 else answer1
    let answer3 := if answer2 == "" then "Workflow completed without textual output." else answer2
    .ok ⟨task.task_id, answer3, acc.2.1, metadata, acc.1⟩

end RagWorkflowAgent

/-!  ## Basic facts about the string helpers  -/

theorem strLength_append (a b : String) : (a ++ b).length = a.length + b.length :=
  List.length_append a.data b.data

theorem strToList_append (a b : String) : (a ++ b).toList = a.toList ++ b.toList := rfl

theorem str_eq_empty_of_length {s : String} (h : s.length = 0) : s = "" := by
  cases s with
  | mk data =>
    cases data with
    | nil => rfl
    | cons c cs => simp [String.length] at h

theorem str_ne_empty_of_length {s : String} (h : 0 < s.length) : s ≠ "" := by
  intro he
  rw [he] at h
  simp [String.length] at h

theorem str_append_ne_empty_left {a : String} (b : String) (ha : a ≠ "") : a ++ b ≠ "" := by
  apply str_ne_empty_of_length
  rw [strLength_append]
  have : a.length ≠ 0 := fun h => ha (str_eq_empty_of_length h)
  omega

theorem pyJoin_cons_ne_empty (sep x : String) (xs : List String) (hx : x ≠ "") :
    pyJoin sep (x :: xs) ≠ "" := by
  cases xs with
  | nil => simpa [pyJoin] using hx
  | cons y ys =>
    simp only [pyJoin, List.tail_cons]
    exact str_append_ne_empty_left _ (str_append_ne_empty_left _ hx)

theorem pyJoin_cons_length (sep x : String) (xs : List String) :
    (pyJoin sep (x :: xs)).length
      = x.length + (xs.map (fun w => sep.length + w.length)).sum := by
  induction xs generalizing x with
  | nil => simp [pyJoin]
  | cons y ys ih =>
    simp only [pyJoin, List.tail_cons, List.map_cons, List.sum_cons]
    rw [strLength_append, strLength_append, ih y]
    omega

theorem mem_dropWhile_of_mem {p : Char → Bool} :
    ∀ (l : List Char) (c : Char), c ∈ l → p c = false → c ∈ l.dropWhile p := by
  intro l
  induction l with
  | nil => intro c hc; cases hc
  | cons a l ih =>
    intro c hc hp
    cases hpa : p a with
    | true =>
      rw [List.dropWhile_cons_of_pos hpa]
      cases hc with
      | head => rw [hp] at hpa; cases hpa
      | tail _ h => exact ih c h hp
    | false =>
      rw [List.dropWhile_cons_of_neg (by simp [hpa])]
      exact hc

theorem mem_pyStrip_toList {s : String} {c : Char} (hc : c ∈ s.toList)
    (hp : isPySpace c = false) : c ∈ (pyStrip s).toList := by
  have h1 : c ∈ s.toList.dropWhile isPySpace := mem_dropWhile_of_mem _ c hc hp
  have h2 : c ∈ (s.toList.dropWhile isPySpace).reverse := List.mem_reverse.mpr h1
  have h3 : c ∈ (s.toList.dropWhile isPySpace).reverse.dropWhile isPySpace :=
    mem_dropWhile_of_mem _ c h2 hp
  have h4 : c ∈ ((s.toList.dropWhile isPySpace).reverse.dropWhile isPySpace).reverse :=
    List.mem_reverse.mpr h3
  simpa [pyStrip] using h4

theorem wordsAux_acc_ne_nil : ∀ (cs acc : List Char), acc ≠ [] → wordsAux cs acc ≠ [] := by
  intro cs
  induction cs with
  | nil =>
    intro acc hacc
    simp [wordsAux, List.isEmpty_iff, hacc]
  | cons c cs ih =>
    intro acc hacc
    have hne : ¬(acc.isEmpty = true) := by simp [List.isEmpty_iff, hacc]
    simp only [wordsAux]
    cases hc : isPySpace c with
    | true =>
      rw [if_pos rfl, if_neg hne]
      simp
    | false =>
      rw [if_neg (by simp)]
      exact ih (c :: acc) (by simp)

theorem wordsAux_ne_nil_of_mem :
    ∀ (cs : List Char) (acc : List Char) (c : Char), c ∈ cs → isPySpace c = false →
      wordsAux cs acc ≠ [] := by
  intro cs
  induction cs with
  | nil => intro acc c hc; cases hc
  | cons a cs ih =>
    intro acc c hc hp
    simp only [wordsAux]
    cases ha : isPySpace a with
    | true =>
      rw [if_pos rfl]
      have hmem : c ∈ cs := by
        cases hc with
        | head => rw [hp] at ha; cases ha
        | tail _ h => exact h
      intro happ
      rcases List.nil_eq_append_iff.mp happ.symm with ⟨_, h2⟩
      exact ih [] c hmem hp h2
    | false =>
      rw [if_neg (by simp)]
      exact wordsAux_acc_ne_nil cs (a :: acc) (by simp)

theorem str_mk_ne_empty {l : List Char} (hl : l ≠ []) : String.mk l ≠ "" := by
  apply str_ne_empty_of_length
  have : 0 < l.length := List.length_pos.mpr hl
  simpa [String.length] using this

theorem wordsAux_mem_ne_empty :
    ∀ (cs acc : List Char) (w : String), w ∈ wordsAux cs acc → w ≠ "" := by
  intro cs
  induction cs with
  | nil =>
    intro acc w hw
    simp only [wordsAux] at hw
    cases hacc : acc.isEmpty with
    | true => simp [hacc] at hw
    | false =>
      rw [if_neg (by simp [hacc])] at hw
      simp only [List.mem_singleton] at hw
      subst hw
      exact str_mk_ne_empty (by simp [List.isEmpty_iff] at hacc; simpa using hacc)
  | cons c cs ih =>
    intro acc w hw
    simp only [wordsAux] at hw
    cases hc : isPySpace c with
    | true =>
      rw [if_pos hc] at hw
      rcases List.mem_append.mp hw with h | h
      · cases hacc : acc.isEmpty with
        | true => simp [hacc] at h
        | false =>
          rw [if_neg (by simp [hacc])] at h
          simp only [List.mem_singleton] at h
          subst h
          exact str_mk_ne_empty (by simp [List.isEmpty_iff] at hacc; simpa using hacc)
      · exact ih [] w h
    | false =>
      rw [if_neg (by simp [hc])] at hw
      exact ih (c :: acc) w hw

theorem pyWords_mem_ne_empty {s : String} {w : String} (hw : w ∈ pyWords s) : w ≠ "" :=
  wordsAux_mem_ne_empty s.toList [] w hw

/-!  ## Length accounting for the truncation core  -/

/-- Length of the single-space join of further words, starting from a
current line length `cur` (0 meaning nothing kept yet) — the accounting
used by `fitWordsAux`. -/
def lenAfter : Nat → List String → Nat
  | cur, [] => cur
  | cur, w :: ws => lenAfter (if cur == 0 then w.length else cur + 1 + w.length) ws

theorem lenAfter_pos : ∀ (ws : List String) (cur : Nat), cur ≠ 0 →
    lenAfter cur ws = cur + (ws.map (fun w => 1 + w.length)).sum := by
  intro ws
  induction ws with
  | nil => intro cur _; simp [lenAfter]
  | cons w ws ih =>
    intro cur hcur
    have hc : (cur == 0) = false := by simpa using hcur
    simp only [lenAfter, hc, List.map_cons, List.sum_cons]
    rw [if_neg (by simp), ih (cur + 1 + w.length) (by omega)]
    omega

theorem lenAfter_zero_eq_join (ws : List String) (h : ∀ w ∈ ws, w ≠ "") :
    lenAfter 0 ws = (pyJoin " " ws).length := by
  cases ws with
  | nil => rfl
  | cons w rest =>
    have hw : w ≠ "" := h w (List.mem_cons_self w rest)
    have hlen : w.length ≠ 0 := fun hz => hw (str_eq_empty_of_length hz)
    simp only [lenAfter]
    rw [if_pos (show ((0 : Nat) == 0) = true from rfl)]
    rw [lenAfter_pos rest w.length hlen, pyJoin_cons_length]
    have hsep : (" " : String).length = 1 := rfl
    rw [hsep]

theorem fitWordsAux_mem (width phLen : Nat) :
    ∀ (ws : List String) (cur : Nat) (w : String),
      w ∈ fitWordsAux width phLen cur ws → w ∈ ws := by
  intro ws
  induction ws with
  | nil => intro cur w hw; simp [fitWordsAux] at hw
  | cons x ws ih =>
    intro cur w hw
    simp only [fitWordsAux] at hw
    by_cases hfit : (if cur == 0 then x.length else cur + 1 + x.length) + phLen ≤ width
    · rw [if_pos hfit] at hw
      rcases List.mem_cons.mp hw with h | h
      · exact h ▸ List.mem_cons_self x ws
      · exact List.mem_cons_of_mem x (ih _ w h)
    · rw [if_neg hfit] at hw
      cases hw

theorem fitWordsAux_bound (width phLen : Nat) :
    ∀ (ws : List String) (cur : Nat),
      fitWordsAux width phLen cur ws = [] ∨
      lenAfter cur (fitWordsAux width phLen cur ws) + phLen ≤ width := by
  intro ws
  induction ws with
  | nil => intro cur; exact Or.inl rfl
  | cons w ws ih =>
    intro cur
    simp only [fitWordsAux]
    by_cases hfit : (if cur == 0 then w.length else cur + 1 + w.length) + phLen ≤ width
    · rw [if_pos hfit]
      right
      have hstep : lenAfter cur (w :: fitWordsAux width phLen (if cur == 0 then w.length else cur + 1 + w.length) ws)
          = lenAfter (if cur == 0 then w.length else cur + 1 + w.length)
              (fitWordsAux width phLen (if cur == 0 then w.length else cur + 1 + w.length) ws) := rfl
      rw [hstep]
      rcases ih (if cur == 0 then w.length else cur + 1 + w.length) with hnil | hb
      · rw [hnil]
        simpa [lenAfter] using hfit
      · exact hb
    · rw [if_neg hfit]
      exact Or.inl rfl

theorem str_append_ne_empty_right (a : String) {b : String} (hb : b ≠ "") : a ++ b ≠ "" := by
  apply str_ne_empty_of_length
  rw [strLength_append]
  have : b.length ≠ 0 := fun h => hb (str_eq_empty_of_length h)
  omega

theorem strAppend_assoc (a b c : String) : (a ++ b) ++ c = a ++ (b ++ c) :=
  congrArg String.mk (List.append_assoc a.data b.data c.data)

theorem textwrap_shorten_len_le (text : String) (width : Nat) (ph : String)
    (hph : (pyLStrip ph).length ≤ width) :
    (textwrap_shorten text width ph).length ≤ width := by
  unfold textwrap_shorten
  by_cases hfits : (pyJoin " " (pyWords text)).length ≤ width
  · rw [if_pos hfits]
    exact hfits
  · rw [if_neg hfits]
    rcases hk : fitWordsAux width ph.length 0 (pyWords text) with _ | ⟨w, kept⟩
    · exact hph
    · have hb := fitWordsAux_bound width ph.length (pyWords text) 0
      rw [hk] at hb
      rcases hb with hnil | hbound
      · cases hnil
      · have hmem : ∀ x ∈ w :: kept, x ≠ "" := by
          intro x hx
          exact pyWords_mem_ne_empty (fitWordsAux_mem width ph.length (pyWords text) 0 x (hk ▸ hx))
        rw [strLength_append]
        rw [lenAfter_zero_eq_join (w :: kept) hmem] at hbound
        omega

theorem textwrap_shorten_trunc (text : String) (width : Nat)
    (h : ¬((pyJoin " " (pyWords text)).length ≤ width)) :
    ∃ p, textwrap_shorten text width " ..." = p ++ "..." := by
  unfold textwrap_shorten
  rw [if_neg h]
  rcases hk : fitWordsAux width (" ..." : String).length 0 (pyWords text) with _ | ⟨w, kept⟩
  · exact ⟨"", rfl⟩
  · refine ⟨pyJoin " " (w :: kept) ++ " ", ?_⟩
    rw [strAppend_assoc]
    rfl

theorem textwrap_shorten_ne_empty (text : String) (width : Nat)
    (h : ∃ c ∈ text.toList, isPySpace c = false) :
    textwrap_shorten text width " ..." ≠ "" := by
  unfold textwrap_shorten
  rcases h with ⟨c, hc, hcs⟩
  have hwords : pyWords text ≠ [] := wordsAux_ne_nil_of_mem text.toList [] c hc hcs
  by_cases hfits : (pyJoin " " (pyWords text)).length ≤ width
  · rw [if_pos hfits]
    rcases hw : pyWords text with _ | ⟨w, rest⟩
    · exact absurd hw hwords
    · exact pyJoin_cons_ne_empty " " w rest
        (pyWords_mem_ne_empty (hw ▸ List.mem_cons_self w rest))
  · rw [if_neg hfits]
    rcases hk : fitWordsAux width (" ..." : String).length 0 (pyWords text) with _ | ⟨w, kept⟩
    · intro hcontra
      exact absurd hcontra (by decide)
    · exact str_append_ne_empty_right _ (by decide)

/-!  ## Facts about `synthesize_answer`  -/

theorem synthesize_answer_combined_has_letter (query teaser remaining : String) :
    ∃ c ∈ (pyStrip ("Question: " ++ query ++ "\nContext: " ++ teaser ++ " "
        ++ remaining)).toList, isPySpace c = false := by
  refine ⟨'Q', ?_, by decide⟩
  apply mem_pyStrip_toList ?_ (by decide)
  rw [strToList_append]
  apply List.mem_append_left
  rw [strToList_append]
  apply List.mem_append_left
  rw [strToList_append]
  apply List.mem_append_left
  rw [strToList_append]
  apply List.mem_append_left
  rw [strToList_append]
  apply List.mem_append_left
  decide

theorem synthesize_answer_ne_empty (query : String) (snippets : List String)
    (h : snippets ≠ []) : synthesize_answer query snippets ≠ "" := by
  unfold synthesize_answer
  rw [if_neg (by simpa [List.isEmpty_iff] using h)]
  exact textwrap_shorten_ne_empty _ 320
    (synthesize_answer_combined_has_letter query (pyStrip (snippets.headD ""))
      (pyJoin " " (snippets.tail.map pyStrip)))

theorem synthesize_answer_len_le (query : String) (snippets : List String)
    (h : snippets ≠ []) : (synthesize_answer query snippets).length ≤ 320 := by
  unfold synthesize_answer
  rw [if_neg (by simpa [List.isEmpty_iff] using h)]
  exact textwrap_shorten_len_le _ 320 " ..." (by decide)

/-!  ## Facts about the runner loop  -/

namespace RagWorkflowAgent

theorem runSteps_ops_map (client : RagClientI) (task : RagWorkflowTask) :
    ∀ (ops : List RagWorkflowStep) (idx : Nat),
      (runSteps client task idx ops).1.map (fun s => s.operation)
        = ops.map (fun s => s.operation.value) := by
  intro ops
  induction ops with
  | nil => intro idx; rfl
  | cons s rest ih =>
    intro idx
    simp only [runSteps]
    cases hx : execute_step client s task with
    | error e => simp [hx, ih]
    | ok out => simp [hx, ih]

theorem runSteps_length (client : RagClientI) (task : RagWorkflowTask)
    (ops : List RagWorkflowStep) (idx : Nat) :
    (runSteps client task idx ops).1.length = ops.length := by
  have h := congrArg List.length (runSteps_ops_map client task ops idx)
  simpa using h

theorem runSteps_snippets (client : RagClientI) (task : RagWorkflowTask) :
    ∀ (ops : List RagWorkflowStep) (idx : Nat),
      (runSteps client task idx ops).2.1
        = (ops.map (fun s =>
            match execute_step client s task with
            | .ok out => out.2.1
            | .error _ => [])).flatten := by
  intro ops
  induction ops with
  | nil => intro idx; rfl
  | cons s rest ih =>
    intro idx
    simp only [runSteps, List.map_cons, List.flatten]
    cases hx : execute_step client s task with
    | error e => simp [hx, ih]
    | ok out => simp [hx, ih]

theorem runSteps_failed_entry (client : RagClientI) (task : RagWorkflowTask) :
    ∀ (ops : List RagWorkflowStep) (idx i : Nat) (e : String) (hi : i < ops.length),
      execute_step client (ops.get ⟨i, hi⟩) task = .error e →
      (runSteps client task idx ops).1.get? i
          = some ⟨(ops.get ⟨i, hi⟩).operation.value, "failed", .dict [("error", .str e)]⟩ ∧
      ("Step " ++ toString (idx + i) ++ " (" ++ (ops.get ⟨i, hi⟩).operation.value
          ++ ") failed: " ++ e) ∈ (runSteps client task idx ops).2.2 := by
  intro ops
  induction ops with
  | nil => intro idx i e hi; cases hi
  | cons s rest ih =>
    intro idx i e hi hfail
    cases i with
    | zero =>
      simp only [List.get] at hfail
      simp only [runSteps, hfail]
      constructor
      · rfl
      · simp [List.get]
    | succ j =>
      have hj : j < rest.length := Nat.lt_of_succ_lt_succ hi
      have hget : (s :: rest).get ⟨j + 1, hi⟩ = rest.get ⟨j, hj⟩ := rfl
      rw [hget] at hfail ⊢
      have hidx : idx + (j + 1) = (idx + 1) + j := by omega
      rcases ih (idx + 1) j e hj hfail with ⟨h1, h2⟩
      simp only [runSteps]
      cases hx : execute_step client s task with
      | error e2 =>
        refine ⟨h1, ?_⟩
        rw [hidx]
        exact List.mem_cons_of_mem _ h2
      | ok out =>
        refine ⟨h1, ?_⟩
        rw [hidx]
        exact List.mem_append_right _ h2

theorem runSteps_notes_ne_empty (client : RagClientI) (task : RagWorkflowTask) :
    ∀ (ops : List RagWorkflowStep) (idx : Nat) (x : String),
      x ∈ (runSteps client task idx ops).2.2 → x ≠ "" := by
  intro ops
  induction ops with
  | nil => intro idx x hx; cases hx
  | cons s rest ih =>
    intro idx x hx
    simp only [runSteps] at hx
    cases hexec : execute_step client s task with
    | error e =>
      rw [hexec] at hx
      rcases List.mem_cons.mp hx with h | h
      · subst h
        apply str_ne_empty_of_length
        simp only [strLength_append]
        have h5 : ("Step " : String).length = 5 := rfl
        omega
      · exact ih (idx + 1) x h
    | ok out =>
      rw [hexec] at hx
      rcases List.mem_append.mp hx with h | h
      · by_cases hnote : (out.2.2 != "") = true
        · rw [if_pos hnote] at h
          simp only [List.mem_singleton] at h
          subst h
          apply str_ne_empty_of_length
          simp only [strLength_append]
          have h5 : ("Step " : String).length = 5 := rfl
          omega
        · rw [if_neg hnote] at h
          cases h
      · exact ih (idx + 1) x h

end RagWorkflowAgent

/-!  ## Concrete clients and tasks used by the witnesses  -/

/-- A remote client whose every call fails (e.g. the engine is down). -/
def stubClient : RagClientI where
  semantic_search := fun _ => .error "remote unavailable"
  search_source_summaries := fun _ _ _ => .error "remote unavailable"
  start_analysis := fun _ _ => .error "remote unavailable"
  get_analysis_result := fun _ => .error "remote unavailable"
  list_analysis_results := fun _ => .error "remote unavailable"
  generate_documents := fun _ _ _ _ _ => .error "remote unavailable"
  get_document_status := fun _ => .error "remote unavailable"
  get_embedding_stats := fun _ => .error "remote unavailable"

/-- A remote client with fixed successful responses. -/
def okClient : RagClientI where
  semantic_search := fun _ => .ok [⟨"alpha", [], .none, .none⟩, ⟨"beta", [], .none, .none⟩]
  search_source_summaries := fun _ _ _ => .ok [⟨"gamma", .none, .none, .none, []⟩]
  start_analysis := fun _ _ => .ok [("analysis_id", .str "a1")]
  get_analysis_result := fun _ => .ok [("status", .str "done")]
  list_analysis_results := fun _ => .ok []
  generate_documents := fun _ _ _ _ _ => .ok [("task_id", .str "d1")]
  get_document_status := fun _ => .ok [("status", .str "done")]
  get_embedding_stats := fun _ => .ok []

/-- One-operation sample task. -/
def taskStats : RagWorkflowTask := ⟨"t-stats", .str "Q", [⟨.EMBEDDING_STATS, []⟩], []⟩

/-- Sample task whose single semantic-search step is missing its query. -/
def taskNoQuery : RagWorkflowTask := ⟨"t-noquery", .none, [⟨.SEMANTIC_SEARCH, []⟩], []⟩

/-- Sample task with no operations at all. -/
def taskEmpty : RagWorkflowTask := ⟨"t-empty", .none, [], []⟩

/-- Two-operation sample task: a semantic search followed by a stats call. -/
def taskTwo : RagWorkflowTask :=
  ⟨"t-two", .str "Q", [⟨.SEMANTIC_SEARCH, [("query", .str "Q")]⟩, ⟨.EMBEDDING_STATS, []⟩], []⟩

/-!  ## The claims  -/

/-- C1: for every task with a non-empty operations sequence, `run` returns a
TaskResult whose `steps` has exactly the same length and order as the
task's operations — one StepResult per operation, each labelled with that
operation's string value, regardless of step success or failure. -/
theorem rag_c1_one_step_result_per_operation (client : RagClientI) (task : RagWorkflowTask)
    (h : task.operations ≠ []) :
    ∃ r, RagWorkflowAgent.run client task = .ok r ∧
      r.steps.map (fun s => s.operation) = task.operations.map (fun s => s.operation.value) ∧
      r.steps.length = task.operations.length := by
  have hne : ¬(task.operations.isEmpty = true) := by simp [List.isEmpty_iff, h]
  unfold RagWorkflowAgent.run
  rw [if_neg hne]
  exact ⟨_, rfl, RagWorkflowAgent.runSteps_ops_map client task task.operations 1,
    RagWorkflowAgent.runSteps_length client task task.operations 1⟩

/-- Witness for C1 at a concrete client and one-operation task. -/
theorem rag_c1_witness :
    ∃ r, RagWorkflowAgent.run stubClient taskStats = .ok r ∧
      r.steps.map (fun s => s.operation)
        = taskStats.operations.map (fun s => s.operation.value) ∧
      r.steps.length = taskStats.operations.length :=
  rag_c1_one_step_result_per_operation stubClient taskStats (List.cons_ne_nil _ _)

/-- C2: when the dispatch of step `i` (0-based here; the note is numbered
`i + 1`) fails with message `e`, `run` still returns a result covering all
operations, records at position `i` a `"failed"` StepResult with output
`{error: e}`, records the `"Step {i+1} ({op}) failed: {e}"` note, and no
step-level error propagates to the caller. -/
theorem rag_c2_step_failure_contained (client : RagClientI) (task : RagWorkflowTask)
    (i : Nat) (e : String) (hne : task.operations ≠ []) (hi : i < task.operations.length)
    (hfail : RagWorkflowAgent.execute_step client (task.operations.get ⟨i, hi⟩) task
      = .error e) :
    ∃ r, RagWorkflowAgent.run client task = .ok r ∧
      r.steps.length = task.operations.length ∧
      r.steps.get? i = some ⟨(task.operations.get ⟨i, hi⟩).operation.value, "failed",
        .dict [("error", .str e)]⟩ ∧
      ("Step " ++ toString (1 + i) ++ " ("
          ++ (task.operations.get ⟨i, hi⟩).operation.value ++ ") failed: " ++ e)
        ∈ (RagWorkflowAgent.runSteps client task 1 task.operations).2.2 := by
  have hempty : ¬(task.operations.isEmpty = true) := by simp [List.isEmpty_iff, hne]
  have hentry := RagWorkflowAgent.runSteps_failed_entry client task task.operations 1 i e hi hfail
  unfold RagWorkflowAgent.run
  rw [if_neg hempty]
  exact ⟨_, rfl, RagWorkflowAgent.runSteps_length client task task.operations 1,
    hentry.1, hentry.2⟩

/-- Witness for C2: a semantic-search step with no query fails inside the
runner while the task still completes. -/
theorem rag_c2_witness :
    ∃ r, RagWorkflowAgent.run stubClient taskNoQuery = .ok r ∧
      r.steps.length = taskNoQuery.operations.length ∧
      r.steps.get? 0 = some ⟨(taskNoQuery.operations.get ⟨0, by simp [taskNoQuery]⟩).operation.value,
        "failed", .dict [("error", .str "semantic_search requires a query")]⟩ ∧
      ("Step " ++ toString (1 + 0) ++ " ("
          ++ (taskNoQuery.operations.get ⟨0, by simp [taskNoQuery]⟩).operation.value
          ++ ") failed: " ++ "semantic_search requires a query")
        ∈ (RagWorkflowAgent.runSteps stubClient taskNoQuery 1 taskNoQuery.operations).2.2 :=
  rag_c2_step_failure_contained stubClient taskNoQuery 0 "semantic_search requires a query"
    (List.cons_ne_nil _ _) (by simp [taskNoQuery]) rfl

/-- C3: a task with an empty operations sequence is rejected with the
task-level validation error, producing no StepResults; the outcome does
not depend on the remote client at all, so no remote call is issued. -/
theorem rag_c3_empty_task_rejected (client client2 : RagClientI) (task : RagWorkflowTask)
    (h : task.operations = []) :
    RagWorkflowAgent.run client task
      = .error "workflow task must declare at least one operation" ∧
    RagWorkflowAgent.run client task = RagWorkflowAgent.run client2 task := by
  have hempty : task.operations.isEmpty = true := by simp [h]
  constructor
  · unfold RagWorkflowAgent.run
    rw [if_pos hempty]
  · unfold RagWorkflowAgent.run
    rw [if_pos hempty, if_pos hempty]

/-- Witness for C3 at a concrete empty task and two different clients. -/
theorem rag_c3_witness :
    RagWorkflowAgent.run stubClient taskEmpty
      = .error "workflow task must declare at least one operation" ∧
    RagWorkflowAgent.run stubClient taskEmpty = RagWorkflowAgent.run okClient taskEmpty :=
  rag_c3_empty_task_rejected stubClient okClient taskEmpty rfl

/-- C4: the TaskResult's `context_snippets` is the step-major concatenation
of the snippet lists of the steps, in step order (failed steps contribute
nothing, each successful step's own snippet order is preserved). -/
theorem rag_c4_snippets_step_major (client : RagClientI) (task : RagWorkflowTask)
    (h : task.operations ≠ []) :
    ∃ r, RagWorkflowAgent.run client task = .ok r ∧
      r.context_snippets
        = (task.operations.map (fun s =>
            match RagWorkflowAgent.execute_step client s task with
            | .ok out => out.2.1
            | .error _ => [])).flatten := by
  have hne : ¬(task.operations.isEmpty = true) := by simp [List.isEmpty_iff, h]
  unfold RagWorkflowAgent.run
  rw [if_neg hne]
  exact ⟨_, rfl, RagWorkflowAgent.runSteps_snippets client task task.operations 1⟩

/-- Witness for C4 at a two-step task against the successful client. -/
theorem rag_c4_witness :
    ∃ r, RagWorkflowAgent.run okClient taskTwo = .ok r ∧
      r.context_snippets
        = (taskTwo.operations.map (fun s =>
            match RagWorkflowAgent.execute_step okClient s taskTwo with
            | .ok out => out.2.1
            | .error _ => [])).flatten :=
  rag_c4_snippets_step_major okClient taskTwo (List.cons_ne_nil _ _)

/-- C5 counterexample: for query `"Q"` and snippets `["s1","s2"]` the
answer is `"Question: Q Context: s1 s2"` — the truncation routine
collapses the composed newline into a single space, so the answer does
not start with the claimed `"Question: Q\nContext: s1 s2"`. -/
theorem rag_c5_counterexample :
    synthesize_answer "Q" ["s1", "s2"] = "Question: Q Context: s1 s2" ∧
    ("Question: Q\nContext: s1 s2").toList.isPrefixOf
      (synthesize_answer "Q" ["s1", "s2"]).toList = false ∧
    ¬ '\n' ∈ (synthesize_answer "Q" ["s1", "s2"]).toList := by
  refine ⟨by decide, by decide, by decide⟩

/-- C5 (amended): `synthesize` returns the fixed no-documents message on an
empty snippet list; otherwise it composes
`"Question: {query}\nContext: {lead} {rest}"`, collapses every whitespace
run (the newline included) to a single space, and truncates the collapsed
text to at most 320 characters, appending the ellipsis marker at the
truncation point; for query `"Q"` and snippets `["s1","s2"]` the answer
starts with `"Question: Q Context: s1 s2"` (single space in place of the
newline). -/
theorem rag_c5_synthesize_behaviour :
    (∀ q : String, synthesize_answer q []
        = "No supporting documents were located. Please provide additional detail.") ∧
    (∀ (q : String) (sn : List String), sn ≠ [] → (synthesize_answer q sn).length ≤ 320) ∧
    (∀ (q : String) (sn : List String), sn ≠ [] →
      ¬((pyJoin " " (pyWords (pyStrip ("Question: " ++ q ++ "\nContext: "
          ++ pyStrip (sn.headD "") ++ " " ++ pyJoin " " (sn.tail.map pyStrip))))).length ≤ 320) →
      ∃ p, synthesize_answer q sn = p ++ "...") ∧
    ("Question: Q Context: s1 s2").toList.isPrefixOf
      (synthesize_answer "Q" ["s1", "s2"]).toList = true := by
  refine ⟨fun q => rfl, synthesize_answer_len_le, ?_, by decide⟩
  intro q sn hne htrunc
  unfold synthesize_answer
  rw [if_neg (by simpa [List.isEmpty_iff] using hne)]
  exact textwrap_shorten_trunc _ 320 htrunc

/-- Witness for C5: the bound and the truncation marker at concrete inputs
(the second input's collapsed composition is 421 characters long). -/
theorem rag_c5_witness :
    (synthesize_answer "Q" ["s1", "s2"]).length ≤ 320 ∧
    (∃ p, synthesize_answer "Q" [String.mk (List.replicate 400 'a')] = p ++ "...") :=
  ⟨rag_c5_synthesize_behaviour.2.1 "Q" ["s1", "s2"] (List.cons_ne_nil _ _),
   rag_c5_synthesize_behaviour.2.2.1 "Q" [String.mk (List.replicate 400 'a')]
     (List.cons_ne_nil _ _) (by decide)⟩

/-- C7 counterexample: with metadata `{file_name: "", file_path: "b.md"}`
(both keys present) and content `"c"`, the snippet is `"[b.md] c"`: the
present-but-empty `file_name` is skipped, so the first PRESENT key does
not win (under the claimed rule the label would be `""` and the snippet
`"c"` or `"[] c"`). -/
theorem rag_c7_counterexample :
    RagSearchResult.as_context
        ⟨"c", [("file_name", .str ""), ("file_path", .str "b.md")], .none, .none⟩
      = "[b.md] c" ∧
    ("[b.md] c" : String) ≠ "c" ∧ ("[b.md] c" : String) ≠ "[] c" := by
  refine ⟨by decide, by decide, by decide⟩

/-- C7 (amended): the display label is the first of
`file_name`, `file_path`, `document_type`, `analysis_id` whose value is
truthy (present keys bound to falsy values such as `""` are skipped);
with `{file_name: "a.md", file_path: "b.md"}` the label is `"a.md"`; when
no key has a truthy value the snippet is the content alone (stripped of
surrounding whitespace), with no prefix. -/
theorem rag_c7_label_precedence :
    (∀ (content : String) (md : List (String × PyVal)) (os rs : PyVal),
      ((dictGetD md "file_name" .none).truthy = true →
        RagSearchResult.as_context ⟨content, md, os, rs⟩
          = pyStrip ("[" ++ pyStr (dictGetD md "file_name" .none) ++ "] " ++ content)) ∧
      ((dictGetD md "file_name" .none).truthy = false →
        (dictGetD md "file_path" .none).truthy = true →
        RagSearchResult.as_context ⟨content, md, os, rs⟩
          = pyStrip ("[" ++ pyStr (dictGetD md "file_path" .none) ++ "] " ++ content)) ∧
      ((dictGetD md "file_name" .none).truthy = false →
        (dictGetD md "file_path" .none).truthy = false →
        (dictGetD md "document_type" .none).truthy = true →
        RagSearchResult.as_context ⟨content, md, os, rs⟩
          = pyStrip ("[" ++ pyStr (dictGetD md "document_type" .none) ++ "] " ++ content)) ∧
      ((dictGetD md "file_name" .none).truthy = false →
        (dictGetD md "file_path" .none).truthy = false →
        (dictGetD md "document_type" .none).truthy = false →
        (dictGetD md "analysis_id" .none).truthy = true →
        RagSearchResult.as_context ⟨content, md, os, rs⟩
          = pyStrip ("[" ++ pyStr (dictGetD md "analysis_id" .none) ++ "] " ++ content)) ∧
      ((dictGetD md "file_name" .none).truthy = false →
        (dictGetD md "file_path" .none).truthy = false →
        (dictGetD md "document_type" .none).truthy = false →
        (dictGetD md "analysis_id" .none).truthy = false →
        RagSearchResult.as_context ⟨content, md, os, rs⟩ = pyStrip content)) ∧
    RagSearchResult.as_context
        ⟨"c", [("file_name", .str "a.md"), ("file_path", .str "b.md")], .none, .none⟩
      = "[a.md] c" := by
  refine ⟨?_, by decide⟩
  intro content md os rs
  refine ⟨?_, ?_, ?_, ?_, ?_⟩
  · intro h1
    simp [RagSearchResult.as_context, pyOr, h1]
  · intro h1 h2
    simp [RagSearchResult.as_context, pyOr, h1, h2]
  · intro h1 h2 h3
    simp [RagSearchResult.as_context, pyOr, h1, h2, h3]
  · intro h1 h2 h3 h4
    simp [RagSearchResult.as_context, pyOr, h1, h2, h3, h4]
  · intro h1 h2 h3 h4
    simp [RagSearchResult.as_context, pyOr, h1, h2, h3, h4]

/-- Witness for C7 at concrete metadata mappings, one per precedence
level. -/
theorem rag_c7_witness :
    RagSearchResult.as_context ⟨"c", [("file_path", .str "b.md")], .none, .none⟩
      = pyStrip ("[" ++ pyStr (dictGetD [("file_path", PyVal.str "b.md")] "file_path" .none)
          ++ "] " ++ "c") ∧
    RagSearchResult.as_context ⟨" c ", [], .none, .none⟩ = pyStrip " c " :=
  ⟨((rag_c7_label_precedence.1 "c" [("file_path", .str "b.md")] .none .none).2.1
      (by decide) (by decide)),
   ((rag_c7_label_precedence.1 " c " [] .none .none).2.2.2.2
      (by decide) (by decide) (by decide) (by decide))⟩

/-- C6: the final answer follows the exact fallback chain — the
synthesized answer when the task query is truthy and snippets were
collected; otherwise the step notes joined with newlines when any exist;
otherwise the fixed completion message. -/
theorem rag_c6_answer_fallback (client : RagClientI) (task : RagWorkflowTask)
    (h : task.operations ≠ []) :
    ∃ r, RagWorkflowAgent.run client task = .ok r ∧
      r.answer =
        (if task.query.truthy = true
            ∧ (RagWorkflowAgent.runSteps client task 1 task.operations).2.1 ≠ [] then
          synthesize_answer (pyStr task.query)
            (RagWorkflowAgent.runSteps client task 1 task.operations).2.1
        else if (RagWorkflowAgent.runSteps client task 1 task.operations).2.2 ≠ [] then
          pyJoin "\n" (RagWorkflowAgent.runSteps client task 1 task.operations).2.2
        else "Workflow completed without textual output.") := by
  have hne : ¬(task.operations.isEmpty = true) := by simp [List.isEmpty_iff, h]
  unfold RagWorkflowAgent.run
  rw [if_neg hne]
  refine ⟨_, rfl, ?_⟩
  cases hq : task.query.truthy with
  | false =>
    rcases hsn : (RagWorkflowAgent.runSteps client task 1 task.operations).2.2 with _ | ⟨n, ns⟩
    · simp [hq, hsn]
    · have hn : n ≠ "" := RagWorkflowAgent.runSteps_notes_ne_empty client task
        task.operations 1 n (by rw [hsn]; exact List.mem_cons_self n ns)
      have hjoin : pyJoin "\n" (n :: ns) ≠ "" := pyJoin_cons_ne_empty "\n" n ns hn
      simp [hq, hsn, hjoin]
  | true =>
    rcases hsnip : (RagWorkflowAgent.runSteps client task 1 task.operations).2.1 with _ | ⟨x, xs⟩
    · rcases hsn : (RagWorkflowAgent.runSteps client task 1 task.operations).2.2 with _ | ⟨n, ns⟩
      · simp [hq, hsnip, hsn]
      · have hn : n ≠ "" := RagWorkflowAgent.runSteps_notes_ne_empty client task
          task.operations 1 n (by rw [hsn]; exact List.mem_cons_self n ns)
        have hjoin : pyJoin "\n" (n :: ns) ≠ "" := pyJoin_cons_ne_empty "\n" n ns hn
        simp [hq, hsnip, hsn, hjoin]
    · have hsyn : synthesize_answer (pyStr task.query) (x :: xs) ≠ "" :=
        synthesize_answer_ne_empty _ _ (List.cons_ne_nil _ _)
      simp [hq, hsnip, hsyn]

/-- Witness for C6 at a concrete client and task (query and snippets
present: the synthesized branch). -/
theorem rag_c6_witness :
    ∃ r, RagWorkflowAgent.run okClient taskTwo = .ok r ∧
      r.answer =
        (if taskTwo.query.truthy = true
            ∧ (RagWorkflowAgent.runSteps okClient taskTwo 1 taskTwo.operations).2.1 ≠ [] then
          synthesize_answer (pyStr taskTwo.query)
            (RagWorkflowAgent.runSteps okClient taskTwo 1 taskTwo.operations).2.1
        else if (RagWorkflowAgent.runSteps okClient taskTwo 1 taskTwo.operations).2.2 ≠ [] then
          pyJoin "\n" (RagWorkflowAgent.runSteps okClient taskTwo 1 taskTwo.operations).2.2
        else "Workflow completed without textual output.") :=
  rag_c6_answer_fallback okClient taskTwo (List.cons_ne_nil _ _)

/-- C8: `start_analysis` with an empty repositories sequence and
`generate_documents` with an empty documentTypes sequence both fail with
the validation error and issue no HTTP request, for every environment and
every other argument. -/
theorem rag_c8_client_validation (env : HttpEnv) (options : List (String × PyVal))
    (aid lang cp uss : PyVal) :
    RagClient.start_analysis env (.list []) options
      = (.error "at least one repository is required to start analysis", []) ∧
    RagClient.generate_documents env aid (.list []) lang cp uss
      = (.error "document_types must contain at least one entry", []) :=
  ⟨rfl, rfl⟩

/-- A semantic-search/source-summary client that reports the arguments it
was called with inside an error message, to observe what the dispatcher
passes. -/
def probeClient : RagClientI :=
  { stubClient with
    semantic_search := fun args =>
      .error ("probe query=" ++ pyRepr args.query ++ " k=" ++ toString args.k)
    search_source_summaries := fun aid q tk =>
      .error ("probe aid=" ++ pyRepr aid ++ " query=" ++ pyRepr q
        ++ " top_k=" ++ toString tk) }

/-- C9: query-needing operations resolve `step.parameters.query` first and
fall back to the task query; when neither is truthy they fail with the
operation-naming message; for `source_summary_search` a missing
`analysis_id` fails regardless of the query situation (checked
independently); and when the checks pass, the resolved query is exactly
what the client receives (observed through `probeClient`). -/
theorem rag_c9_query_resolution :
    (∀ (client : RagClientI) (params : List (String × PyVal)) (task : RagWorkflowTask),
      (pyOr (dictGetD params "query" .none) task.query).truthy = false →
      RagWorkflowAgent.semantic_search_step client params task
        = .error "semantic_search requires a query" ∧
      ((dictGetD params "analysis_id" .none).truthy = true →
        RagWorkflowAgent.source_summary_step client params task
          = .error "source_summary_search requires a query")) ∧
    (∀ (client : RagClientI) (params : List (String × PyVal)) (task : RagWorkflowTask),
      (dictGetD params "analysis_id" .none).truthy = false →
      RagWorkflowAgent.source_summary_step client params task
        = .error "source_summary_search requires analysis_id") ∧
    (∀ (params : List (String × PyVal)) (task : RagWorkflowTask) (n : Int),
      (pyOr (dictGetD params "query" .none) task.query).truthy = true →
      PyVal.toPyInt (dictGetD params "k" (dictGetD params "top_k" (.int 5))) = .ok n →
      RagWorkflowAgent.semantic_search_step probeClient params task
        = .error ("probe query=" ++ pyRepr (pyOr (dictGetD params "query" .none) task.query)
            ++ " k=" ++ toString n)) ∧
    (∀ (params : List (String × PyVal)) (task : RagWorkflowTask) (n : Int),
      (dictGetD params "analysis_id" .none).truthy = true →
      (pyOr (dictGetD params "query" .none) task.query).truthy = true →
      PyVal.toPyInt (dictGetD params "top_k" (dictGetD params "k" (.int 10))) = .ok n →
      RagWorkflowAgent.source_summary_step probeClient params task
        = .error ("probe aid=" ++ pyRepr (dictGetD params "analysis_id" .none)
            ++ " query=" ++ pyRepr (pyOr (dictGetD params "query" .none) task.query)
            ++ " top_k=" ++ toString n)) := by
  refine ⟨?_, ?_, ?_, ?_⟩
  · intro client params task hq
    constructor
    · simp only [RagWorkflowAgent.semantic_search_step, hq]
      rfl
    · intro haid
      simp only [RagWorkflowAgent.source_summary_step, haid, hq]
      rfl
  · intro client params task haid
    simp only [RagWorkflowAgent.source_summary_step, haid]
    rfl
  · intro params task n hq hk
    simp only [RagWorkflowAgent.semantic_search_step, hq, hk, probeClient]
    rfl
  · intro params task n haid hq hk
    simp only [RagWorkflowAgent.source_summary_step, haid, hq, hk, probeClient]
    rfl

/-- Witness for C9 at concrete inputs: missing query, missing analysis id,
and a probed resolved query (step query `"sq"` wins over task query). -/
theorem rag_c9_witness :
    RagWorkflowAgent.semantic_search_step stubClient [] ⟨"t", .none, [], []⟩
      = .error "semantic_search requires a query" ∧
    RagWorkflowAgent.source_summary_step stubClient [] ⟨"t", .str "Q", [], []⟩
      = .error "source_summary_search requires analysis_id" ∧
    RagWorkflowAgent.semantic_search_step probeClient [("query", .str "sq")]
        ⟨"t", .str "Q", [], []⟩
      = .error ("probe query=" ++ pyRepr (pyOr (dictGetD [("query", PyVal.str "sq")] "query"
          .none) (PyVal.str "Q")) ++ " k=" ++ toString (5 : Int)) :=
  ⟨(rag_c9_query_resolution.1 stubClient [] ⟨"t", .none, [], []⟩ (by decide)).1,
   rag_c9_query_resolution.2.1 stubClient [] ⟨"t", .str "Q", [], []⟩ (by decide),
   rag_c9_query_resolution.2.2.1 [("query", .str "sq")] ⟨"t", .str "Q", [], []⟩ 5
     (by decide) rfl⟩

/-- C10: the result-count parameter accepts an alias — `semantic_search`
uses `int(params.get("k", params.get("top_k", 5)))` (the `"k"` binding
wins when present, else `"top_k"`, else 5) and `source_summary_search`
uses `int(params.get("top_k", params.get("k", 10)))` (the `"top_k"`
binding wins, else `"k"`, else 10); the probed client observes the
coerced count. Presence is `dict.get` presence, independent of
truthiness. -/
theorem rag_c10_count_alias :
    (∀ (params : List (String × PyVal)) (task : RagWorkflowTask) (v : PyVal) (n : Int),
      (pyOr (dictGetD params "query" .none) task.query).truthy = true →
      params.find? (fun kv => kv.1 == "k") = some ("k", v) →
      PyVal.toPyInt v = .ok n →
      RagWorkflowAgent.semantic_search_step probeClient params task
        = .error ("probe query=" ++ pyRepr (pyOr (dictGetD params "query" .none) task.query)
            ++ " k=" ++ toString n)) ∧
    (∀ (params : List (String × PyVal)) (task : RagWorkflowTask) (v : PyVal) (n : Int),
      (pyOr (dictGetD params "query" .none) task.query).truthy = true →
      params.find? (fun kv => kv.1 == "k") = Option.none →
      params.find? (fun kv => kv.1 == "top_k") = some ("top_k", v) →
      PyVal.toPyInt v = .ok n →
      RagWorkflowAgent.semantic_search_step probeClient params task
        = .error ("probe query=" ++ pyRepr (pyOr (dictGetD params "query" .none) task.query)
            ++ " k=" ++ toString n)) ∧
    (∀ (params : List (String × PyVal)) (task : RagWorkflowTask),
      (pyOr (dictGetD params "query" .none) task.query).truthy = true →
      params.find? (fun kv => kv.1 == "k") = Option.none →
      params.find? (fun kv => kv.1 == "top_k") = Option.none →
      RagWorkflowAgent.semantic_search_step probeClient params task
        = .error ("probe query=" ++ pyRepr (pyOr (dictGetD params "query" .none) task.query)
            ++ " k=" ++ toString (5 : Int))) ∧
    (∀ (params : List (String × PyVal)) (task : RagWorkflowTask) (v : PyVal) (n : Int),
      (dictGetD params "analysis_id" .none).truthy = true →
      (pyOr (dictGetD params "query" .none) task.query).truthy = true →
      params.find? (fun kv => kv.1 == "top_k") = some ("top_k", v) →
      PyVal.toPyInt v = .ok n →
      RagWorkflowAgent.source_summary_step probeClient params task
        = .error ("probe aid=" ++ pyRepr (dictGetD params "analysis_id" .none)
            ++ " query=" ++ pyRepr (pyOr (dictGetD params "query" .none) task.query)
            ++ " top_k=" ++ toString n)) ∧
    (∀ (params : List (String × PyVal)) (task : RagWorkflowTask) (v : PyVal) (n : Int),
      (dictGetD params "analysis_id" .none).truthy = true →
      (pyOr (dictGetD params "query" .none) task.query).truthy = true →
      params.find? (fun kv => kv.1 == "top_k") = Option.none →
      params.find? (fun kv => kv.1 == "k") = some ("k", v) →
      PyVal.toPyInt v = .ok n →
      RagWorkflowAgent.source_summary_step probeClient params task
        = .error ("probe aid=" ++ pyRepr (dictGetD params "analysis_id" .none)
            ++ " query=" ++ pyRepr (pyOr (dictGetD params "query" .none) task.query)
            ++ " top_k=" ++ toString n)) ∧
    (∀ (params : List (String × PyVal)) (task : RagWorkflowTask),
      (dictGetD params "analysis_id" .none).truthy = true →
      (pyOr (dictGetD params "query" .none) task.query).truthy = true →
      params.find? (fun kv => kv.1 == "top_k") = Option.none →
      params.find? (fun kv => kv.1 == "k") = Option.none →
      RagWorkflowAgent.source_summary_step probeClient params task
        = .error ("probe aid=" ++ pyRepr (dictGetD params "analysis_id" .none)
            ++ " query=" ++ pyRepr (pyOr (dictGetD params "query" .none) task.query)
            ++ " top_k=" ++ toString (10 : Int))) := by
  refine ⟨?_, ?_, ?_, ?_, ?_, ?_⟩
  · intro params task v n hq hfind hint
    have hget : dictGetD params "k" (dictGetD params "top_k" (.int 5)) = v := by
      simp [dictGetD, hfind]
    simp only [RagWorkflowAgent.semantic_search_step, hq, hget, hint, probeClient]
    rfl
  · intro params task v n hq hfk hftk hint
    have hget : dictGetD params "k" (dictGetD params "top_k" (.int 5)) = v := by
      simp [dictGetD, hfk, hftk]
    simp only [RagWorkflowAgent.semantic_search_step, hq, hget, hint, probeClient]
    rfl
  · intro params task hq hfk hftk
    have hget : dictGetD params "k" (dictGetD params "top_k" (.int 5)) = .int 5 := by
      simp [dictGetD, hfk, hftk]
    simp only [RagWorkflowAgent.semantic_search_step, hq, hget, probeClient, PyVal.toPyInt]
    rfl
  · intro params task v n haid hq hfind hint
    have hget : dictGetD params "top_k" (dictGetD params "k" (.int 10)) = v := by
      simp [dictGetD, hfind]
    simp only [RagWorkflowAgent.source_summary_step, haid, hq, hget, hint, probeClient]
    rfl
  · intro params task v n haid hq hftk hfk hint
    have hget : dictGetD params "top_k" (dictGetD params "k" (.int 10)) = v := by
      simp [dictGetD, hftk, hfk]
    simp only [RagWorkflowAgent.source_summary_step, haid, hq, hget, hint, probeClient]
    rfl
  · intro params task haid hq hftk hfk
    have hget : dictGetD params "top_k" (dictGetD params "k" (.int 10)) = .int 10 := by
      simp [dictGetD, hftk, hfk]
    simp only [RagWorkflowAgent.source_summary_step, haid, hq, hget, probeClient, PyVal.toPyInt]
    rfl

/-- Witness for C10: `"k"` beats `"top_k"` for semantic search and
`"top_k"` beats `"k"` for source-summary search at concrete parameter
mappings. -/
theorem rag_c10_witness :
    RagWorkflowAgent.semantic_search_step probeClient
        [("k", .int 7), ("top_k", .int 3), ("query", .str "q")] ⟨"t", .none, [], []⟩
      = .error ("probe query=" ++ pyRepr (pyOr (dictGetD [("k", PyVal.int 7),
          ("top_k", PyVal.int 3), ("query", PyVal.str "q")] "query" .none) PyVal.none)
          ++ " k=" ++ toString (7 : Int)) ∧
    RagWorkflowAgent.source_summary_step probeClient
        [("top_k", .int 4), ("k", .int 9), ("analysis_id", .str "a"), ("query", .str "q")]
        ⟨"t", .none, [], []⟩
      = .error ("probe aid=" ++ pyRepr (dictGetD [("top_k", PyVal.int 4), ("k", PyVal.int 9),
          ("analysis_id", PyVal.str "a"), ("query", PyVal.str "q")] "analysis_id" .none)
          ++ " query=" ++ pyRepr (pyOr (dictGetD [("top_k", PyVal.int 4), ("k", PyVal.int 9),
          ("analysis_id", PyVal.str "a"), ("query", PyVal.str "q")] "query" .none) PyVal.none)
          ++ " top_k=" ++ toString (4 : Int)) :=
  ⟨rag_c10_count_alias.1 [("k", .int 7), ("top_k", .int 3), ("query", .str "q")]
      ⟨"t", .none, [], []⟩ (.int 7) 7 (by decide) rfl rfl,
   rag_c10_count_alias.2.2.2.1 [("top_k", .int 4), ("k", .int 9), ("analysis_id", .str "a"),
      ("query", .str "q")] ⟨"t", .none, [], []⟩ (.int 4) 4 (by decide) (by decide) rfl rfl⟩
